import Mathlib

/-!
Verification of the Windows `desktop_drop` plugin
(`src/packages/desktop_drop/windows/desktop_drop_plugin.cpp`).

The C++ source is shallowly embedded.  Pure helpers become Lean
functions; the registrar's stateful operations become explicit
state-passing functions over a `RegState` record; OS facilities
(IsWindow, RegisterDragDrop outcomes, child enumeration) are an
explicit environment `OSModel`.  Window handles (HWND) are modelled
as `Nat` with `0` for the null handle; DWORD bit masks are `Nat`
with bitwise operations.
-/

namespace DesktopDrop

/-- DROPEFFECT_NONE (ole2 constant, value 0). -/
def DROPEFFECT_NONE : Nat := 0

/-- DROPEFFECT_COPY (ole2 constant, value 1). -/
def DROPEFFECT_COPY : Nat := 1

/-- DROPEFFECT_MOVE (ole2 constant, value 2). -/
def DROPEFFECT_MOVE : Nat := 2

/-- DROPEFFECT_LINK (ole2 constant, value 4). -/
def DROPEFFECT_LINK : Nat := 4

/-- MK_SHIFT modifier-key bit (value 4). -/
def MK_SHIFT : Nat := 4

/-- MK_CONTROL modifier-key bit (value 8). -/
def MK_CONTROL : Nat := 8

/-- Embedding of `ChooseAllowedEffect` (source lines 87-92): the first of
copy, link, move whose bit is set in `allowed`, else none. -/
def ChooseAllowedEffect (allowed : Nat) : Nat :=
  if allowed &&& DROPEFFECT_COPY ≠ 0 then DROPEFFECT_COPY
  else if allowed &&& DROPEFFECT_LINK ≠ 0 then DROPEFFECT_LINK
  else if allowed &&& DROPEFFECT_MOVE ≠ 0 then DROPEFFECT_MOVE
  else DROPEFFECT_NONE

/-- Embedding of `EffectFromKeyState` (source lines 93-100): pick an effect
from the modifier keys, falling back to `ChooseAllowedEffect` when the
wanted effect is not allowed. -/
def EffectFromKeyState (key allowed : Nat) : Nat :=
  let want : Nat :=
    if key &&& MK_CONTROL ≠ 0 ∧ key &&& MK_SHIFT ≠ 0 then DROPEFFECT_LINK
    else if key &&& MK_CONTROL ≠ 0 then DROPEFFECT_COPY
    else if key &&& MK_SHIFT ≠ 0 then DROPEFFECT_MOVE
    else ChooseAllowedEffect allowed
  if want &&& allowed ≠ 0 then want else ChooseAllowedEffect allowed

/-- Priority order the specification prescribes for picking an allowed
effect: copy, then link, then move. -/
def specEffectPriority : List Nat := [DROPEFFECT_COPY, DROPEFFECT_LINK, DROPEFFECT_MOVE]

/-- First effect of the given priority list whose bit is present in the
mask, or none when no effect of the list is present. -/
def firstAllowed : List Nat → Nat → Nat
  | [], _ => DROPEFFECT_NONE
  | e :: rest, allowed => if allowed &&& e ≠ 0 then e else firstAllowed rest allowed

/-- Spec-side pick: the first effect of `specEffectPriority` present in the
mask, or none if the mask holds no effect.  Written from the spec's words
(section 4.1), to be compared with `ChooseAllowedEffect` from the source. -/
def specPriorityPick (allowed : Nat) : Nat :=
  firstAllowed specEffectPriority allowed

/-- Spec-side resolver, written from the spec's words (section 4.1):
Ctrl+Shift means link, Ctrl alone copy, Shift alone move, no modifiers the
priority pick; if the chosen effect is not in the mask, fall back to the
priority pick. -/
def specResolve (key allowed : Nat) : Nat :=
  let chosen : Nat :=
    if key &&& MK_CONTROL ≠ 0 ∧ key &&& MK_SHIFT ≠ 0 then DROPEFFECT_LINK
    else if key &&& MK_CONTROL ≠ 0 then DROPEFFECT_COPY
    else if key &&& MK_SHIFT ≠ 0 then DROPEFFECT_MOVE
    else specPriorityPick allowed
  if chosen &&& allowed ≠ 0 then chosen else specPriorityPick allowed

theorem specPriorityPick_eq_ChooseAllowedEffect (allowed : Nat) :
    specPriorityPick allowed = ChooseAllowedEffect allowed := by
  by_cases h1 : allowed &&& 1 = 0 <;> by_cases h4 : allowed &&& 4 = 0 <;>
    by_cases h2 : allowed &&& 2 = 0 <;>
    simp [specPriorityPick, specEffectPriority, firstAllowed, ChooseAllowedEffect,
      DROPEFFECT_COPY, DROPEFFECT_LINK, DROPEFFECT_MOVE, DROPEFFECT_NONE, h1, h2, h4]

/-- C1: for every modifier-key combination and every non-empty allowed-effect
mask (a subset of copy or move or link, hence `allowed < 8`), the resolver
returns an effect present in the mask, and it returns none exactly when the
mask is empty. -/
theorem C1_effect_in_mask (key allowed : Nat) (hlt : allowed < 8) :
    (allowed ≠ 0 → EffectFromKeyState key allowed &&& allowed ≠ 0) ∧
    (EffectFromKeyState key allowed = DROPEFFECT_NONE ↔ allowed = 0) := by
  by_cases hc : key &&& MK_CONTROL = 0 <;> by_cases hs : key &&& MK_SHIFT = 0 <;>
    interval_cases allowed <;>
    simp_all [EffectFromKeyState, ChooseAllowedEffect, MK_CONTROL, MK_SHIFT,
      DROPEFFECT_COPY, DROPEFFECT_LINK, DROPEFFECT_MOVE, DROPEFFECT_NONE] <;>
    decide

theorem C1_effect_in_mask_witness :
    (3 : Nat) < 8 ∧
      ((3 : Nat) ≠ 0 → EffectFromKeyState 0 3 &&& 3 ≠ 0) ∧
      (EffectFromKeyState 0 3 = DROPEFFECT_NONE ↔ (3 : Nat) = 0) :=
  ⟨by decide, C1_effect_in_mask 0 3 (by decide)⟩

/-- C7: the effect resolver is deterministic (it is a function) and equals,
on every modifier state and mask, the resolver prescribed by the spec:
Ctrl+Shift means link, Ctrl alone copy, Shift alone move, no modifiers the
copy-link-move priority pick, with fallback to the priority pick when the
modifier-chosen effect is not in the mask and none for the empty mask. -/
theorem C7_resolver_refines_spec (key allowed : Nat) :
    EffectFromKeyState key allowed = specResolve key allowed := by
  simp only [EffectFromKeyState, specResolve, specPriorityPick_eq_ChooseAllowedEffect]

-- -------------------- Async UI event payload --------------------

/-- Embedding of `UiEventType` (source line 106). -/
inductive UiEventType where
  | entered
  | updated
  | exited
  | performed
deriving DecidableEq, Repr

/-- Embedding of `UiEventPayload` (source lines 108-113).  `files` models
the owned `flutter::EncodableList*` pointer: `none` is the null pointer. -/
structure UiEventPayload where
  type : UiEventType
  x : Int
  y : Int
  files : Option (List String)
deriving DecidableEq, Repr

-- -------------------- Drop target protocol operations --------------------

/-- Model of the `IDataObject*` argument as far as the code inspects it:
whether `QueryGetData(CF_HDROP)` returns `S_OK`, whether `GetData`
succeeds, whether `GlobalLock` returns non-null, and the file paths the
HDROP decodes to. -/
structure DropData where
  hasHdrop : Bool
  getDataOk : Bool
  lockOk : Bool
  files : List String
deriving DecidableEq, Repr

/-- Result of one drag-protocol operation: the HRESULT returned to the OS,
the effect written back through `pdwEffect` (`none` models a null pointer),
the payloads handed to `PostUiEvent` in order, the value of the
`in_ole_drop_` flag afterwards, the value stored in `last_drop_ms_` if any,
and whether `OnDragSessionEnd` was signalled. -/
structure OpResult where
  hr : Int
  effect : Option Nat
  events : List UiEventPayload
  inOleDrop : Bool
  lastDropMs : Option Nat
  sessionEndSignaled : Bool
deriving DecidableEq, Repr

/-- Embedding of the effect write-back step shared verbatim by `DragEnter`
(lines 204-208), `DragOver` (lines 233-237) and `Drop` (lines 258-262):
a zero incoming mask is replaced by copy or move or link, the resolver is
applied, and a resolved none is patched to `ChooseAllowedEffect`. -/
def resolveOutEffect (key incoming : Nat) : Nat :=
  let allowed : Nat :=
    if incoming ≠ 0 then incoming
    else DROPEFFECT_COPY ||| DROPEFFECT_MOVE ||| DROPEFFECT_LINK
  let e := EffectFromKeyState key allowed
  if e = DROPEFFECT_NONE then ChooseAllowedEffect allowed else e

/-- The write through the `pdwEffect` pointer: nothing is written when the
pointer is null (`none`). -/
def writeEffect (key : Nat) : Option Nat → Option Nat
  | none => none
  | some incoming => some (resolveOutEffect key incoming)

/-- Embedding of `DesktopDropTarget::DragEnter` (source lines 201-230):
sets `in_ole_drop_`, writes the resolved effect back, converts the point to
client coordinates and posts an Entered payload; unconditionally `S_OK`.
(The `EnsureRegisteredUnderPoint` side call mutates only registrar state
and is modelled with the registrar operations below.) -/
def DragEnter (dataObj : Option DropData) (key : Nat) (pt : Int × Int)
    (effect : Option Nat) (screenToClient : Int × Int → Int × Int) : OpResult :=
  let _ := dataObj
  let client := screenToClient pt
  { hr := 0
    effect := writeEffect key effect
    events := [{ type := .entered, x := client.1, y := client.2, files := none }]
    inOleDrop := true
    lastDropMs := none
    sessionEndSignaled := false }

/-- Embedding of `DesktopDropTarget::DragOver` (source lines 232-243):
writes the resolved effect back and posts an Updated payload with client
coordinates; `in_ole_drop_` is untouched; unconditionally `S_OK`. -/
def DragOver (key : Nat) (pt : Int × Int) (effect : Option Nat)
    (screenToClient : Int × Int → Int × Int) (inOleDrop : Bool) : OpResult :=
  let client := screenToClient pt
  { hr := 0
    effect := writeEffect key effect
    events := [{ type := .updated, x := client.1, y := client.2, files := none }]
    inOleDrop := inOleDrop
    lastDropMs := none
    sessionEndSignaled := false }

/-- Embedding of `DesktopDropTarget::DragLeave` (source lines 245-255):
clears `in_ole_drop_`, posts an Exited payload, signals session end and
records the current time; unconditionally `S_OK`. -/
def DragLeave (now : Nat) : OpResult :=
  { hr := 0
    effect := none
    events := [{ type := .exited, x := 0, y := 0, files := none }]
    inOleDrop := false
    lastDropMs := some now
    sessionEndSignaled := true }

/-- Embedding of `DesktopDropTarget::Drop` (source lines 257-309):
writes the resolved effect back, reads a file list from the data object
(any query, read or lock failure yields the empty list), posts Performed
then Exited, clears `in_ole_drop_`, signals session end and records the
current time; unconditionally `S_OK`. -/
def Drop (dataObj : Option DropData) (key : Nat) (pt : Int × Int)
    (effect : Option Nat) (now : Nat) : OpResult :=
  let _ := pt
  let files : List String :=
    match dataObj with
    | none => []
    | some d =>
      if d.hasHdrop then
        if d.getDataOk then (if d.lockOk then d.files else []) else []
      else []
  { hr := 0
    effect := writeEffect key effect
    events := [{ type := .performed, x := 0, y := 0, files := some files },
               { type := .exited, x := 0, y := 0, files := none }]
    inOleDrop := false
    lastDropMs := some now
    sessionEndSignaled := true }

theorem EffectFromKeyState_full_ne_none (key : Nat) :
    EffectFromKeyState key (DROPEFFECT_COPY ||| DROPEFFECT_MOVE ||| DROPEFFECT_LINK) ≠
      DROPEFFECT_NONE := by
  by_cases hc : key &&& 8 = 0 <;> by_cases hs : key &&& 4 = 0 <;>
    simp [EffectFromKeyState, ChooseAllowedEffect, MK_CONTROL, MK_SHIFT,
      DROPEFFECT_COPY, DROPEFFECT_LINK, DROPEFFECT_MOVE, DROPEFFECT_NONE, hc, hs]

theorem resolveOutEffect_zero (key : Nat) :
    resolveOutEffect key 0 =
      EffectFromKeyState key (DROPEFFECT_COPY ||| DROPEFFECT_MOVE ||| DROPEFFECT_LINK) := by
  simp [resolveOutEffect, EffectFromKeyState_full_ne_none key]

/-- C9: when `DragEnter`, `DragOver` or `Drop` receives a non-null effect
pointer holding a zero mask, the full copy-move-link mask is substituted
before resolving, so all three write back `EffectFromKeyState key 7`; this
value is copy when no modifier is held and is never none. -/
theorem C9_zero_mask_substituted (dataObj : Option DropData) (key : Nat)
    (pt : Int × Int) (screenToClient : Int × Int → Int × Int)
    (inOleDrop : Bool) (now : Nat) :
    (DragEnter dataObj key pt (some 0) screenToClient).effect =
        some (EffectFromKeyState key (DROPEFFECT_COPY ||| DROPEFFECT_MOVE ||| DROPEFFECT_LINK)) ∧
    (DragOver key pt (some 0) screenToClient inOleDrop).effect =
        some (EffectFromKeyState key (DROPEFFECT_COPY ||| DROPEFFECT_MOVE ||| DROPEFFECT_LINK)) ∧
    (Drop dataObj key pt (some 0) now).effect =
        some (EffectFromKeyState key (DROPEFFECT_COPY ||| DROPEFFECT_MOVE ||| DROPEFFECT_LINK)) ∧
    EffectFromKeyState key (DROPEFFECT_COPY ||| DROPEFFECT_MOVE ||| DROPEFFECT_LINK) ≠
        DROPEFFECT_NONE ∧
    (key &&& MK_CONTROL = 0 → key &&& MK_SHIFT = 0 →
      EffectFromKeyState key (DROPEFFECT_COPY ||| DROPEFFECT_MOVE ||| DROPEFFECT_LINK) =
        DROPEFFECT_COPY) := by
  refine ⟨?_, ?_, ?_, EffectFromKeyState_full_ne_none key, ?_⟩
  · simp [DragEnter, writeEffect, resolveOutEffect_zero]
  · simp [DragOver, writeEffect, resolveOutEffect_zero]
  · simp [Drop, writeEffect, resolveOutEffect_zero]
  · intro hc hs
    rw [MK_CONTROL] at hc
    rw [MK_SHIFT] at hs
    simp [EffectFromKeyState, ChooseAllowedEffect, MK_CONTROL, MK_SHIFT,
      DROPEFFECT_COPY, DROPEFFECT_LINK, DROPEFFECT_MOVE, DROPEFFECT_NONE, hc, hs]

theorem C9_zero_mask_substituted_witness :
    (DragEnter none 0 (0, 0) (some 0) id).effect =
        some (EffectFromKeyState 0 (DROPEFFECT_COPY ||| DROPEFFECT_MOVE ||| DROPEFFECT_LINK)) ∧
    EffectFromKeyState 0 (DROPEFFECT_COPY ||| DROPEFFECT_MOVE ||| DROPEFFECT_LINK) =
        DROPEFFECT_COPY :=
  ⟨(C9_zero_mask_substituted none 0 (0, 0) id false 0).1,
    (C9_zero_mask_substituted none 0 (0, 0) id false 0).2.2.2.2 (by decide) (by decide)⟩

/-- C10: all four drag-protocol operations report `S_OK` (zero) to the OS
caller on every invocation, whatever the data object, effect pointer or
read outcomes are. -/
theorem C10_all_ops_return_S_OK (dataObj : Option DropData) (key : Nat)
    (pt : Int × Int) (effect : Option Nat)
    (screenToClient : Int × Int → Int × Int) (inOleDrop : Bool) (now : Nat) :
    (DragEnter dataObj key pt effect screenToClient).hr = 0 ∧
    (DragOver key pt effect screenToClient inOleDrop).hr = 0 ∧
    (DragLeave now).hr = 0 ∧
    (Drop dataObj key pt effect now).hr = 0 :=
  ⟨rfl, rfl, rfl, rfl⟩

-- -------------------- Event dispatcher --------------------

/-- One `channel_->InvokeMethod` call as `DeliverUiEvent` issues it. -/
structure ChannelCall where
  method : String
  argPoint : Option (Int × Int)
  argFiles : Option (List String)
deriving DecidableEq, Repr

/-- Embedding of `DesktopDropTarget::DeliverUiEvent` (source lines 342-364):
the channel call made for the payload, and whether the payload's owned
file list was freed (only the Performed branch wraps `ev->files` in a
`unique_ptr`, which frees it). -/
def DeliverUiEvent (ev : UiEventPayload) : ChannelCall × Bool :=
  match ev.type with
  | .entered => ({ method := "entered", argPoint := some (ev.x, ev.y), argFiles := none }, false)
  | .updated => ({ method := "updated", argPoint := some (ev.x, ev.y), argFiles := none }, false)
  | .exited => ({ method := "exited", argPoint := none, argFiles := none }, false)
  | .performed =>
      ({ method := "performOperation", argPoint := none, argFiles := ev.files }, true)

/-- What became of one payload handed to `PostUiEvent`. -/
structure DispatchOutcome where
  delivered : List ChannelCall
  payloadFreed : Bool
  filesFreed : Bool
deriving DecidableEq, Repr

/-- Embedding of the asynchronous delivery pipeline for one payload:
`DropRegistrar::PostUiEvent` (source lines 480-483) composed with the
`kMsgFireUiEvent` branch of `RootSubclassProc` (source lines 498-503),
under the assumption that a message posted to a live root window is
eventually processed.  `rootAlive` models `root_ != null && IsWindow(root_)`
at post time; `targetPresent` models `target_ != null` at processing time.
`delete ev` frees the payload struct only: `UiEventPayload` has no
destructor, so the owned `files` pointer is freed solely inside the
Performed branch of `DeliverUiEvent`. -/
def dispatchUiEvent (rootAlive targetPresent : Bool) (ev : UiEventPayload) :
    DispatchOutcome :=
  if rootAlive = false then
    { delivered := [], payloadFreed := true, filesFreed := false }
  else if targetPresent then
    let d := DeliverUiEvent ev
    { delivered := [d.1], payloadFreed := true, filesFreed := d.2 }
  else
    { delivered := [], payloadFreed := true, filesFreed := false }

/-- C5: evaluation at the failing input.  A Performed payload carrying an
owned file list, posted when the root window no longer exists, is discarded
without delivery, but the owned file list is NOT released: `delete ev`
frees only the payload struct, contradicting the claim (and the source's
own `owned pointer` comment) that discarding releases owned resources. -/
theorem C5_discard_leaks_owned_files :
    dispatchUiEvent false true
        { type := .performed, x := 0, y := 0, files := some ["C:\\tmp\\a.txt"] } =
      { delivered := [], payloadFreed := true, filesFreed := false } := by
  rfl

-- -------------------- Legacy file-drop handler --------------------

/-- Unsigned 64-bit subtraction, as `now - last_drop_ms_` computes it on
`uint64_t` values (both arguments below `2 ^ 64`). -/
def sub64 (a b : Nat) : Nat :=
  (a + 2 ^ 64 - b) % 2 ^ 64

theorem sub64_eq_sub {a b : Nat} (hba : b ≤ a) (ha : a < 2 ^ 64) :
    sub64 a b = a - b := by
  have h1 : a + 2 ^ 64 - b = (a - b) + 2 ^ 64 := by omega
  rw [sub64, h1, Nat.add_mod_right]
  exact Nat.mod_eq_of_lt (by omega)

/-- Model of the legacy `HDROP` handle as far as `HandleDropFiles` reads
it: the point `DragQueryPoint` yields, whether that point was reported in
client coordinates, and the decoded file paths. -/
structure HdropModel where
  pointIsClient : Bool
  pt : Int × Int
  files : List String
deriving DecidableEq, Repr

/-- Embedding of `DesktopDropTarget::HandleDropFiles` (source lines
366-400).  `dragging` is `in_ole_drop_`; `nowStart` is the `NowMs()` read
used for the debounce, `nowEnd` the one stored at the end; the result is
the list of payloads handed to `PostUiEvent` in order, the new
`last_drop_ms_` value (`none` when unchanged) and whether
`RequestReRegisterAll` was called. -/
def HandleDropFiles (dragging : Bool) (nowStart lastDropMs nowEnd : Nat)
    (screenToClient : Int × Int → Int × Int) (h : HdropModel) :
    List UiEventPayload × Option Nat × Bool :=
  if dragging then ([], none, false)
  else if sub64 nowStart lastDropMs < 200 then ([], none, false)
  else
    let pt := if h.pointIsClient then h.pt else screenToClient h.pt
    ([{ type := .entered, x := pt.1, y := pt.2, files := none },
      { type := .performed, x := 0, y := 0, files := some h.files },
      { type := .exited, x := 0, y := 0, files := none }],
      some nowEnd, true)

/-- C6: the legacy handler posts nothing and changes nothing while a
modern-protocol session is active or within the 200 ms debounce window of
the last drop; otherwise it posts Entered at the drop point (client
coordinates preferred, else converted from screen), Performed with the
full file list, then Exited, requests the deferred re-registration sweep
and records the last-drop time. -/
theorem C6_legacy_drop_handler (dragging : Bool)
    (nowStart lastDropMs nowEnd : Nat)
    (screenToClient : Int × Int → Int × Int) (h : HdropModel)
    (hnow : nowStart < 2 ^ 64) (hlast : lastDropMs ≤ nowStart) :
    (dragging = true →
      HandleDropFiles dragging nowStart lastDropMs nowEnd screenToClient h =
        ([], none, false)) ∧
    (nowStart - lastDropMs < 200 →
      HandleDropFiles dragging nowStart lastDropMs nowEnd screenToClient h =
        ([], none, false)) ∧
    (dragging = false → 200 ≤ nowStart - lastDropMs →
      HandleDropFiles dragging nowStart lastDropMs nowEnd screenToClient h =
        ([{ type := .entered,
            x := (if h.pointIsClient then h.pt else screenToClient h.pt).1,
            y := (if h.pointIsClient then h.pt else screenToClient h.pt).2,
            files := none },
          { type := .performed, x := 0, y := 0, files := some h.files },
          { type := .exited, x := 0, y := 0, files := none }],
          some nowEnd, true)) := by
  have hs : sub64 nowStart lastDropMs = nowStart - lastDropMs :=
    sub64_eq_sub hlast hnow
  refine ⟨?_, ?_, ?_⟩
  · intro hd
    simp [HandleDropFiles, hd]
  · intro hlt
    by_cases hd : dragging = true
    · simp [HandleDropFiles, hd]
    · simp only [Bool.not_eq_true] at hd
      simp [HandleDropFiles, hd, hs, hlt]
  · intro hd hge
    simp [HandleDropFiles, hd, hs, Nat.not_lt.mpr hge]

theorem C6_legacy_drop_handler_witness :
    (HandleDropFiles true 1000 0 1001 id { pointIsClient := true, pt := (3, 4), files := ["f"] } =
        ([], none, false)) ∧
    (HandleDropFiles false 1000 900 1001 id { pointIsClient := true, pt := (3, 4), files := ["f"] } =
        ([], none, false)) ∧
    (HandleDropFiles false 1000 0 1001 id { pointIsClient := true, pt := (3, 4), files := ["f"] } =
        ([{ type := .entered, x := 3, y := 4, files := none },
          { type := .performed, x := 0, y := 0, files := some ["f"] },
          { type := .exited, x := 0, y := 0, files := none }],
          some 1001, true)) :=
  ⟨(C6_legacy_drop_handler true 1000 0 1001 id _ (by norm_num) (by norm_num)).1 rfl,
    (C6_legacy_drop_handler false 1000 900 1001 id _ (by norm_num) (by norm_num)).2.1
      (by norm_num),
    by
      have h := (C6_legacy_drop_handler false 1000 0 1001 id
        { pointIsClient := true, pt := (3, 4), files := ["f"] }
        (by norm_num) (by norm_num)).2.2 rfl (by norm_num)
      simpa using h⟩

-- -------------------- DropRegistrar --------------------

/-- Outcome of an OS `RegisterDragDrop` call, as the code distinguishes
them: a succeeding HRESULT, the failing-but-tolerated
`DRAGDROP_E_ALREADYREGISTERED`, or any other failure. -/
inductive RegResult where
  | ok
  | alreadyRegistered
  | fail
deriving DecidableEq, Repr

/-- The code's acceptance test
`SUCCEEDED(hr) || hr == DRAGDROP_E_ALREADYREGISTERED`. -/
def RegResult.accepted : RegResult → Bool
  | .ok => true
  | .alreadyRegistered => true
  | .fail => false

/-- The OS environment the registrar consults: which handles are live
windows (`IsWindow`), what `RegisterDragDrop` returns per handle, and the
descendants `EnumChildWindows` reports for a root. -/
structure OSModel where
  isWindow : Nat → Bool
  regResult : Nat → RegResult
  children : Nat → List Nat

/-- State of the `DropRegistrar` singleton (source lines 159-169).
`registered` models the `unordered_set` as a duplicate-free list in a
fixed iteration order; `dragging` is the drop target's `in_ole_drop_`
flag read through `IsDragging`; `queuedReRegMsgs` counts
`kMsgDoReRegister` messages pending in the root window's queue and
`sweeps` counts completed `ForceReRegisterAll` executions (both are model
instrumentation of the message queue, not C++ fields). -/
structure RegState where
  root : Nat
  registered : List Nat
  pending_add : List Nat
  pending_del : List Nat
  pending_re_reg : Bool
  dragging : Bool
  queuedReRegMsgs : Nat
  sweeps : Nat
deriving DecidableEq, Repr

/-- `unordered_set::insert`: no effect when the element is present. -/
def setInsert (w : Nat) (l : List Nat) : List Nat :=
  if w ∈ l then l else w :: l

/-- `unordered_set::erase`: removes the element. -/
def setErase (w : Nat) (l : List Nat) : List Nat :=
  l.filter (fun x => x != w)

/-- An OS call the registrar issues, for order-of-operations claims. -/
inductive OSCall where
  | revoke (w : Nat)
  | register (w : Nat)
deriving DecidableEq, Repr

/-- The flush guard `w && IsWindow(w)`. -/
def validWin (os : OSModel) (w : Nat) : Bool :=
  (w != 0) && os.isWindow w

/-- A pending add the flush actually applies: valid window whose
`RegisterDragDrop` outcome is accepted. -/
def acceptedAdd (os : OSModel) (w : Nat) : Bool :=
  validWin os w && (os.regResult w).accepted

/-- Embedding of `DropRegistrar::RegisterOnWindow` (source lines 551-562):
no-op for null or already-registered handles; while dragging, enqueue on
the add-queue and return; otherwise call `RegisterDragDrop` and record the
handle when the outcome is accepted.  Also returns the OS calls issued. -/
def RegisterOnWindow (os : OSModel) (s : RegState) (w : Nat) :
    RegState × List OSCall :=
  if w = 0 then (s, [])
  else if w ∈ s.registered then (s, [])
  else if s.dragging then ({ s with pending_add := s.pending_add ++ [w] }, [])
  else
    ((if (os.regResult w).accepted then { s with registered := setInsert w s.registered }
      else s),
      [OSCall.register w])

/-- Embedding of `DropRegistrar::RevokeOnWindow` (source lines 564-573):
no-op for null or unregistered handles; while dragging, enqueue on the
delete-queue and return; otherwise call `RevokeDragDrop` and erase the
handle regardless of the call's result. -/
def RevokeOnWindow (os : OSModel) (s : RegState) (w : Nat) :
    RegState × List OSCall :=
  let _ := os
  if w = 0 then (s, [])
  else if w ∉ s.registered then (s, [])
  else if s.dragging then ({ s with pending_del := s.pending_del ++ [w] }, [])
  else ({ s with registered := setErase w s.registered }, [OSCall.revoke w])

/-- The delete-queue loop of `FlushPendingChildOps` (source lines 613-619):
for each queued handle that is non-null and still a window, revoke it and
erase it from the registered set.  Returns the new registered set and the
OS calls in order. -/
def flushDels (os : OSModel) : List Nat → List Nat → List Nat × List OSCall
  | [], r => (r, [])
  | w :: l, r =>
    if validWin os w then
      let p := flushDels os l (setErase w r)
      (p.1, OSCall.revoke w :: p.2)
    else flushDels os l r

/-- The add-queue loop of `FlushPendingChildOps` (source lines 622-630):
for each queued handle that is non-null and still a window, call
`RegisterDragDrop` and insert the handle when the outcome is accepted. -/
def flushAdds (os : OSModel) : List Nat → List Nat → List Nat × List OSCall
  | [], r => (r, [])
  | w :: l, r =>
    if validWin os w then
      let r' := if (os.regResult w).accepted then setInsert w r else r
      let p := flushAdds os l r'
      (p.1, OSCall.register w :: p.2)
    else flushAdds os l r

/-- Embedding of `DropRegistrar::FlushPendingChildOps` (source lines
612-632): run the delete-queue, then the add-queue, then clear both. -/
def FlushPendingChildOps (os : OSModel) (s : RegState) :
    RegState × List OSCall :=
  let pd := flushDels os s.pending_del s.registered
  let pa := flushAdds os s.pending_add pd.1
  ({ s with registered := pa.1, pending_del := [], pending_add := [] },
    pd.2 ++ pa.2)

/-- Embedding of `DropRegistrar::DoReRegister` (source lines 594-603):
revoke, erase, re-register, and insert when the outcome is accepted. -/
def DoReRegister (os : OSModel) (s : RegState) (w : Nat) : RegState :=
  let r1 := setErase w s.registered
  let r2 := if (os.regResult w).accepted then setInsert w r1 else r1
  { s with registered := r2 }

/-- The snapshot loop of `ForceReRegisterAll` (source lines 582-586):
re-register every snapshot member that is a live window other than the
root. -/
def reRegisterSnapshot (os : OSModel) (root : Nat) (snap : List Nat) (s : RegState) : RegState :=
  snap.foldl
    (fun acc w =>
      if w ≠ 0 ∧ os.isWindow w = true ∧ w ≠ root then DoReRegister os acc w else acc)
    s

/-- The `EnumChildWindows` pass (source lines 587, 605-610): the
`EnumChildProc` callback calls `RegisterOnWindow` on every enumerated
descendant. -/
def registerChildren (os : OSModel) (ws : List Nat) (s : RegState) : RegState :=
  ws.foldl (fun acc w => (RegisterOnWindow os acc w).1) s

/-- Model instrumentation: count one completed re-registration sweep. -/
def bumpSweeps (s : RegState) : RegState :=
  { s with sweeps := s.sweeps + 1 }

/-- Embedding of `DropRegistrar::ForceReRegisterAll` (source lines
575-592): nothing if the root is gone; otherwise re-register the root,
then every snapshot member that is a live non-root window, then register
every enumerated descendant; `sweeps` counts the completed execution. -/
def ForceReRegisterAll (os : OSModel) (s : RegState) : RegState :=
  if s.root = 0 ∨ os.isWindow s.root = false then s
  else
    bumpSweeps (registerChildren os (os.children s.root)
      (reRegisterSnapshot os s.root s.registered (DoReRegister os s s.root)))

/-- Embedding of `DropRegistrar::RequestReRegisterAll` (source lines
459-463): nothing if the root is gone; otherwise raise the
pending-re-registration flag and post one `kMsgDoReRegister` message. -/
def RequestReRegisterAll (os : OSModel) (s : RegState) : RegState :=
  if s.root = 0 ∨ os.isWindow s.root = false then s
  else { s with pending_re_reg := true, queuedReRegMsgs := s.queuedReRegMsgs + 1 }

/-- Embedding of `DropRegistrar::OnDragSessionEnd` (source lines 465-470):
flush the pending queues, then re-request the sweep if one is pending. -/
def OnDragSessionEnd (os : OSModel) (s : RegState) : RegState :=
  if (FlushPendingChildOps os s).1.pending_re_reg then
    RequestReRegisterAll os (FlushPendingChildOps os s).1
  else (FlushPendingChildOps os s).1

/-- Embedding of the `kMsgDoReRegister` branch of
`DropRegistrar::RootSubclassProc` (source lines 489-497), processing one
queued message (so the queue count drops by one first): when not dragging
and a sweep is pending, clear the flag and run the sweep; when dragging
with a sweep pending, repost the message; otherwise drop it.  Taking the
message off the queue changes none of the fields the branch conditions
read. -/
def ProcessReRegisterMsg (os : OSModel) (s : RegState) : RegState :=
  if s.queuedReRegMsgs = 0 then s
  else if s.dragging = false ∧ s.pending_re_reg = true then
    ForceReRegisterAll os
      { s with queuedReRegMsgs := s.queuedReRegMsgs - 1, pending_re_reg := false }
  else if s.pending_re_reg = true then
    { s with queuedReRegMsgs := s.queuedReRegMsgs - 1 + 1 }
  else { s with queuedReRegMsgs := s.queuedReRegMsgs - 1 }

theorem mem_setInsert {a w : Nat} {l : List Nat} :
    a ∈ setInsert w l ↔ a = w ∨ a ∈ l := by
  by_cases h : w ∈ l
  · simp only [setInsert, if_pos h]
    exact ⟨Or.inr, fun h' => h'.elim (fun e => e ▸ h) id⟩
  · simp [setInsert, h]

theorem mem_setErase {a w : Nat} {l : List Nat} :
    a ∈ setErase w l ↔ a ∈ l ∧ a ≠ w := by
  simp [setErase, List.mem_filter]

theorem mem_flushDels (os : OSModel) (l : List Nat) :
    ∀ (r : List Nat) (a : Nat),
      a ∈ (flushDels os l r).1 ↔ a ∈ r ∧ ¬(validWin os a = true ∧ a ∈ l) := by
  induction l with
  | nil => intro r a; simp [flushDels]
  | cons w l ih =>
    intro r a
    cases hv : validWin os w with
    | true =>
      simp only [flushDels, hv, if_true, ih, mem_setErase, List.mem_cons]
      by_cases haw : a = w
      · subst haw; simp [hv]
      · simp only [haw]; tauto
    | false =>
      simp only [flushDels, hv, Bool.false_eq_true, if_false, ih, List.mem_cons]
      by_cases haw : a = w
      · subst haw; simp [hv]
      · simp only [haw]; tauto

theorem flushDels_calls (os : OSModel) (l : List Nat) :
    ∀ r : List Nat,
      (flushDels os l r).2 = (l.filter (validWin os)).map OSCall.revoke := by
  induction l with
  | nil => intro r; simp [flushDels]
  | cons w l ih =>
    intro r
    cases hv : validWin os w with
    | true => simp [flushDels, hv, ih, List.filter_cons]
    | false => simp [flushDels, hv, ih, List.filter_cons]

theorem mem_flushAdds (os : OSModel) (l : List Nat) :
    ∀ (r : List Nat) (a : Nat),
      a ∈ (flushAdds os l r).1 ↔ a ∈ r ∨ (acceptedAdd os a = true ∧ a ∈ l) := by
  induction l with
  | nil => intro r a; simp [flushAdds]
  | cons w l ih =>
    intro r a
    cases hv : validWin os w with
    | true =>
      cases hr : (os.regResult w).accepted with
      | true =>
        simp only [flushAdds, hv, if_true, hr, ih, mem_setInsert, List.mem_cons]
        by_cases haw : a = w
        · subst haw; simp [acceptedAdd, hv, hr]
        · simp only [haw]; tauto
      | false =>
        simp only [flushAdds, hv, if_true, hr, Bool.false_eq_true, if_false, ih, List.mem_cons]
        by_cases haw : a = w
        · subst haw; simp [acceptedAdd, hv, hr]
        · simp only [haw]; tauto
    | false =>
      simp only [flushAdds, hv, Bool.false_eq_true, if_false, ih, List.mem_cons]
      by_cases haw : a = w
      · subst haw; simp [acceptedAdd, hv]
      · simp only [haw]; tauto

theorem flushAdds_calls (os : OSModel) (l : List Nat) :
    ∀ r : List Nat,
      (flushAdds os l r).2 = (l.filter (validWin os)).map OSCall.register := by
  induction l with
  | nil => intro r; simp [flushAdds]
  | cons w l ih =>
    intro r
    cases hv : validWin os w with
    | true => simp [flushAdds, hv, ih, List.filter_cons]
    | false => simp [flushAdds, hv, ih, List.filter_cons]

theorem flush_registered_toFinset (os : OSModel) (s : RegState) :
    (FlushPendingChildOps os s).1.registered.toFinset =
      (s.registered.toFinset \ (s.pending_del.filter (validWin os)).toFinset) ∪
        (s.pending_add.filter (acceptedAdd os)).toFinset := by
  ext a
  simp only [FlushPendingChildOps, List.mem_toFinset, Finset.mem_union, Finset.mem_sdiff,
    List.mem_filter, mem_flushAdds, mem_flushDels]
  tauto

/-- C2 counterexample.  With a drag session active and handle 5 registered,
the request sequence revoke(5) then register(5) enqueues only the delete
(the register call sees 5 still in the registered set and returns), so the
flush leaves 5 unregistered, while applying every requested mutation once
with deletes preceding adds would leave it registered, i.e. would give
the set containing 5. -/
theorem C2_counterexample :
    ((FlushPendingChildOps
        { isWindow := fun _ => true, regResult := fun _ => RegResult.ok,
          children := fun _ => [] }
        (RegisterOnWindow
          { isWindow := fun _ => true, regResult := fun _ => RegResult.ok,
            children := fun _ => [] }
          (RevokeOnWindow
            { isWindow := fun _ => true, regResult := fun _ => RegResult.ok,
              children := fun _ => [] }
            { root := 1, registered := [5], pending_add := [], pending_del := [],
              pending_re_reg := false, dragging := true, queuedReRegMsgs := 0,
              sweeps := 0 }
            5).1
          5).1).1).registered.toFinset ≠ ({5} : Finset Nat) := by
  decide

/-- C2 (amended): the flush revokes the delete-queue first, then registers
the add-queue, each in enqueue order, skipping handles that are null or no
longer live windows, then clears both queues; the registered set
afterwards equals the one obtained by applying every enqueued mutation
once, deletes before adds, where an add lands in the set only when its OS
registration outcome is accepted. -/
theorem C2_flush_applies_enqueued_ops (os : OSModel) (s : RegState) :
    (FlushPendingChildOps os s).1.registered.toFinset =
        (s.registered.toFinset \ (s.pending_del.filter (validWin os)).toFinset) ∪
          (s.pending_add.filter (acceptedAdd os)).toFinset ∧
    (FlushPendingChildOps os s).1.pending_del = [] ∧
    (FlushPendingChildOps os s).1.pending_add = [] ∧
    (FlushPendingChildOps os s).2 =
        (s.pending_del.filter (validWin os)).map OSCall.revoke ++
          (s.pending_add.filter (validWin os)).map OSCall.register := by
  refine ⟨flush_registered_toFinset os s, rfl, rfl, ?_⟩
  simp only [FlushPendingChildOps, flushDels_calls, flushAdds_calls]

/-- C3: evaluation at the failing input.  Handle 7 is registered and its
revocation is queued mid-session; by flush time the window is destroyed
(`IsWindow` is false).  The flush then attempts no OS revoke on 7 — the
call trace is empty, as the claim says — but, contrary to the claim, it
also skips the erase, leaving 7 in the registered set: the
`if (w && IsWindow(w))` guard encloses both the `RevokeDragDrop` call and
the `registered_.erase(w)`. -/
theorem C3_destroyed_child_not_removed :
    7 ∈ ((FlushPendingChildOps
        { isWindow := fun w => w != 7, regResult := fun _ => RegResult.ok,
          children := fun _ => [] }
        { root := 1, registered := [7], pending_add := [], pending_del := [7],
          pending_re_reg := false, dragging := false, queuedReRegMsgs := 0,
          sweeps := 0 }).1).registered ∧
    (FlushPendingChildOps
        { isWindow := fun w => w != 7, regResult := fun _ => RegResult.ok,
          children := fun _ => [] }
        { root := 1, registered := [7], pending_add := [], pending_del := [7],
          pending_re_reg := false, dragging := false, queuedReRegMsgs := 0,
          sweeps := 0 }).2 = [] := by
  decide

/-- C8 counterexample.  Re-enqueuing a handle already present in the
add-queue is not a no-op: with handle 5 unregistered, a session active and
5 already queued, `RegisterOnWindow` appends a second copy of 5 to the
add-queue, so the state changes. -/
theorem C8_counterexample :
    (RegisterOnWindow
        { isWindow := fun _ => true, regResult := fun _ => RegResult.ok,
          children := fun _ => [] }
        { root := 1, registered := [], pending_add := [5], pending_del := [],
          pending_re_reg := false, dragging := true, queuedReRegMsgs := 0,
          sweeps := 0 }
        5).1 ≠
      { root := 1, registered := [], pending_add := [5], pending_del := [],
        pending_re_reg := false, dragging := true, queuedReRegMsgs := 0,
        sweeps := 0 } := by
  decide

/-- C8 (amended): registerWindow is a no-op for a null or already
registered handle; while a session is active it appends the handle to the
add-queue and returns, a duplicate append included when the handle is
already queued — but the duplicate does not change the registered set the
flush produces, because the repeated OS registration's already-registered
outcome is treated as success; with no session active it performs the OS
registration and records the handle exactly when the outcome is success
or already-registered. -/
theorem C8_register_window_behavior (os : OSModel) (s : RegState) (w : Nat) :
    (w = 0 → RegisterOnWindow os s w = (s, [])) ∧
    (w ∈ s.registered → RegisterOnWindow os s w = (s, [])) ∧
    (w ≠ 0 → w ∉ s.registered → s.dragging = true →
      RegisterOnWindow os s w = ({ s with pending_add := s.pending_add ++ [w] }, [])) ∧
    (w ≠ 0 → w ∉ s.registered → s.dragging = false →
      RegisterOnWindow os s w =
        ((if (os.regResult w).accepted then { s with registered := setInsert w s.registered }
          else s),
          [OSCall.register w])) ∧
    (w ≠ 0 → w ∉ s.registered → s.dragging = true → w ∈ s.pending_add →
      (FlushPendingChildOps os (RegisterOnWindow os s w).1).1.registered.toFinset =
        (FlushPendingChildOps os s).1.registered.toFinset) := by
  refine ⟨?_, ?_, ?_, ?_, ?_⟩
  · intro h0
    simp [RegisterOnWindow, h0]
  · intro hmem
    by_cases h0 : w = 0
    · simp [RegisterOnWindow, h0]
    · simp [RegisterOnWindow, h0, hmem]
  · intro h0 hmem hd
    simp [RegisterOnWindow, h0, hmem, hd]
  · intro h0 hmem hd
    simp [RegisterOnWindow, h0, hmem, hd]
  · intro h0 hmem hd hq
    have hreg : (RegisterOnWindow os s w).1 =
        { s with pending_add := s.pending_add ++ [w] } := by
      simp [RegisterOnWindow, h0, hmem, hd]
    rw [hreg, flush_registered_toFinset, flush_registered_toFinset]
    have hfilter : ((s.pending_add ++ [w]).filter (acceptedAdd os)).toFinset =
        (s.pending_add.filter (acceptedAdd os)).toFinset := by
      ext a
      simp only [List.filter_append, List.toFinset_append, Finset.mem_union,
        List.mem_toFinset, List.mem_filter, List.mem_singleton]
      constructor
      · rintro (h | ⟨rfl, hacc⟩)
        · exact h
        · exact ⟨hq, hacc⟩
      · exact Or.inl
    simp only [hfilter]

theorem C8_register_window_behavior_witness :
    RegisterOnWindow
        { isWindow := fun _ => true, regResult := fun _ => RegResult.ok,
          children := fun _ => [] }
        { root := 1, registered := [], pending_add := [5], pending_del := [],
          pending_re_reg := false, dragging := true, queuedReRegMsgs := 0,
          sweeps := 0 }
        5 =
      ({ root := 1, registered := [], pending_add := [5, 5], pending_del := [],
         pending_re_reg := false, dragging := true, queuedReRegMsgs := 0,
         sweeps := 0 }, []) :=
  (C8_register_window_behavior
    { isWindow := fun _ => true, regResult := fun _ => RegResult.ok,
      children := fun _ => [] }
    { root := 1, registered := [], pending_add := [5], pending_del := [],
      pending_re_reg := false, dragging := true, queuedReRegMsgs := 0,
      sweeps := 0 }
    5).2.2.1 (by decide) (by decide) rfl

-- -------------------- Deferred re-registration (C4) --------------------

/-- The registrar fields the deferred-work logic reads and must not lose:
pending flag, queued message count, session flag, root handle and sweep
count. -/
def ghostFields (s : RegState) : Bool × Nat × Bool × Nat × Nat :=
  (s.pending_re_reg, s.queuedReRegMsgs, s.dragging, s.root, s.sweeps)

theorem foldl_preserves {α β : Type} (g : RegState → β) (f : RegState → α → RegState)
    (hf : ∀ s a, g (f s a) = g s) :
    ∀ (l : List α) (s : RegState), g (l.foldl f s) = g s := by
  intro l
  induction l with
  | nil => intro s; rfl
  | cons a l ih => intro s; rw [List.foldl_cons, ih, hf]

theorem RegisterOnWindow_ghost (os : OSModel) (s : RegState) (w : Nat) :
    ghostFields (RegisterOnWindow os s w).1 = ghostFields s := by
  unfold RegisterOnWindow
  split_ifs <;> rfl

theorem DoReRegister_ghost (os : OSModel) (s : RegState) (w : Nat) :
    ghostFields (DoReRegister os s w) = ghostFields s := rfl

theorem reRegisterSnapshot_ghost (os : OSModel) (root : Nat) (snap : List Nat)
    (s : RegState) : ghostFields (reRegisterSnapshot os root snap s) = ghostFields s := by
  unfold reRegisterSnapshot
  refine foldl_preserves ghostFields _ (fun t w => ?_) snap s
  by_cases h : w ≠ 0 ∧ os.isWindow w = true ∧ w ≠ root
  · simp only [if_pos h, DoReRegister_ghost]
  · simp only [if_neg h]

theorem registerChildren_ghost (os : OSModel) (ws : List Nat) (s : RegState) :
    ghostFields (registerChildren os ws s) = ghostFields s := by
  unfold registerChildren
  exact foldl_preserves ghostFields _ (fun t w => RegisterOnWindow_ghost os t w) ws s

theorem sweepBody_ghost (os : OSModel) (s : RegState) :
    ghostFields (registerChildren os (os.children s.root)
      (reRegisterSnapshot os s.root s.registered (DoReRegister os s s.root))) =
      ghostFields s := by
  rw [registerChildren_ghost, reRegisterSnapshot_ghost]
  exact DoReRegister_ghost os s s.root

theorem ForceReRegisterAll_ctrl (os : OSModel) (s : RegState) :
    (ForceReRegisterAll os s).pending_re_reg = s.pending_re_reg ∧
    (ForceReRegisterAll os s).queuedReRegMsgs = s.queuedReRegMsgs ∧
    (ForceReRegisterAll os s).dragging = s.dragging ∧
    (ForceReRegisterAll os s).root = s.root := by
  unfold ForceReRegisterAll
  split_ifs with h
  · exact ⟨rfl, rfl, rfl, rfl⟩
  · have hall := sweepBody_ghost os s
    exact ⟨congrArg (fun t => t.1) hall, congrArg (fun t => t.2.1) hall,
      congrArg (fun t => t.2.2.1) hall, congrArg (fun t => t.2.2.2.1) hall⟩

theorem ForceReRegisterAll_sweeps (os : OSModel) (s : RegState)
    (h1 : s.root ≠ 0) (h2 : os.isWindow s.root = true) :
    (ForceReRegisterAll os s).sweeps = s.sweeps + 1 := by
  unfold ForceReRegisterAll
  rw [if_neg (by simp [h1, h2])]
  have hall := sweepBody_ghost os s
  have hsw : (registerChildren os (os.children s.root)
      (reRegisterSnapshot os s.root s.registered (DoReRegister os s s.root))).sweeps =
      s.sweeps := congrArg (fun t => t.2.2.2.2) hall
  show (registerChildren os (os.children s.root)
      (reRegisterSnapshot os s.root s.registered (DoReRegister os s s.root))).sweeps + 1 =
    s.sweeps + 1
  rw [hsw]

theorem ProcessReRegisterMsg_dragging_fixed (os : OSModel) (s : RegState)
    (hd : s.dragging = true) (hp : s.pending_re_reg = true) :
    ProcessReRegisterMsg os s = s := by
  unfold ProcessReRegisterMsg
  split_ifs with h1 h2
  · rfl
  · exact absurd h2.1 (by simp [hd])
  · have hq : s.queuedReRegMsgs - 1 + 1 = s.queuedReRegMsgs := by omega
    rw [hq]

theorem ProcessReRegisterMsg_dragging_sweeps (os : OSModel) (s : RegState)
    (hd : s.dragging = true) :
    (ProcessReRegisterMsg os s).sweeps = s.sweeps := by
  unfold ProcessReRegisterMsg
  split_ifs with h1 h2 h3
  · rfl
  · exact absurd h2.1 (by simp [hd])
  · rfl
  · rfl

theorem ProcessReRegisterMsg_pending_false (os : OSModel) (s : RegState)
    (hp : s.pending_re_reg = false) :
    (ProcessReRegisterMsg os s).sweeps = s.sweeps ∧
    (ProcessReRegisterMsg os s).pending_re_reg = false := by
  unfold ProcessReRegisterMsg
  split_ifs with h1 h2 h3
  · exact ⟨rfl, hp⟩
  · exact absurd h2.2 (by simp [hp])
  · exact absurd h3 (by simp [hp])
  · exact ⟨rfl, hp⟩

theorem ProcessReRegisterMsg_iter_pending_false (os : OSModel) :
    ∀ (n : Nat) (s : RegState), s.pending_re_reg = false →
      ((ProcessReRegisterMsg os)^[n] s).sweeps = s.sweeps := by
  intro n
  induction n with
  | zero => intro s _; rfl
  | succ n ih =>
    intro s hp
    have h := ProcessReRegisterMsg_pending_false os s hp
    rw [Function.iterate_succ_apply, ih _ h.2, h.1]

theorem ProcessReRegisterMsg_fires (os : OSModel) (s : RegState)
    (hd : s.dragging = false) (hp : s.pending_re_reg = true)
    (hq : s.queuedReRegMsgs ≠ 0) (h1 : s.root ≠ 0) (h2 : os.isWindow s.root = true) :
    (ProcessReRegisterMsg os s).sweeps = s.sweeps + 1 ∧
    (ProcessReRegisterMsg os s).pending_re_reg = false := by
  unfold ProcessReRegisterMsg
  rw [if_neg hq, if_pos ⟨hd, hp⟩]
  constructor
  · exact ForceReRegisterAll_sweeps os
      { s with queuedReRegMsgs := s.queuedReRegMsgs - 1, pending_re_reg := false } h1 h2
  · exact (ForceReRegisterAll_ctrl os
      { s with queuedReRegMsgs := s.queuedReRegMsgs - 1, pending_re_reg := false }).1

theorem OnDragSessionEnd_facts (os : OSModel) (s : RegState)
    (h1 : s.root ≠ 0) (h2 : os.isWindow s.root = true) (hp : s.pending_re_reg = true) :
    (OnDragSessionEnd os s).dragging = s.dragging ∧
    (OnDragSessionEnd os s).pending_re_reg = true ∧
    (OnDragSessionEnd os s).queuedReRegMsgs = s.queuedReRegMsgs + 1 ∧
    (OnDragSessionEnd os s).sweeps = s.sweeps ∧
    (OnDragSessionEnd os s).root = s.root := by
  unfold OnDragSessionEnd RequestReRegisterAll
  rw [if_pos (show (FlushPendingChildOps os s).1.pending_re_reg = true from hp)]
  have hra : ¬(s.root = 0 ∨ os.isWindow s.root = false) := by simp [h1, h2]
  rw [if_neg (show ¬((FlushPendingChildOps os s).1.root = 0 ∨
      os.isWindow (FlushPendingChildOps os s).1.root = false) from hra)]
  exact ⟨rfl, rfl, rfl, rfl, rfl⟩

/-- C4: the re-registration sweep never runs while the session flag is
true — processing the deferred-work message while dragging leaves the
sweep count unchanged, indeed with a sweep pending it leaves the whole
registrar state unchanged (the message reposts itself) — and once the
session ends with a sweep pending, processing the queued messages runs the
sweep exactly once: after any number `j ≥ 1` of further messages the sweep
count has grown by exactly one, however many self-rescheduled copies of
the message are queued. -/
theorem C4_sweep_exactly_once_after_session (os : OSModel) (s : RegState) (k j : Nat)
    (hroot : s.root ≠ 0) (hwin : os.isWindow s.root = true)
    (hdrag : s.dragging = true) (hpend : s.pending_re_reg = true) (hj : 1 ≤ j) :
    (∀ t : RegState, t.dragging = true → (ProcessReRegisterMsg os t).sweeps = t.sweeps) ∧
    (ProcessReRegisterMsg os)^[k] s = s ∧
    ((ProcessReRegisterMsg os)^[j]
        (OnDragSessionEnd os
          { (ProcessReRegisterMsg os)^[k] s with dragging := false })).sweeps =
      s.sweeps + 1 := by
  have hfix : ProcessReRegisterMsg os s = s :=
    ProcessReRegisterMsg_dragging_fixed os s hdrag hpend
  have hiter : (ProcessReRegisterMsg os)^[k] s = s := Function.iterate_fixed hfix k
  refine ⟨fun t ht => ProcessReRegisterMsg_dragging_sweeps os t ht, hiter, ?_⟩
  rw [hiter]
  obtain ⟨hd2, hp2, hq2, hsw2, hr2⟩ :=
    OnDragSessionEnd_facts os { s with dragging := false } hroot hwin hpend
  obtain ⟨j', rfl⟩ : ∃ j', j = j' + 1 := ⟨j - 1, by omega⟩
  rw [Function.iterate_succ_apply]
  have hfire := ProcessReRegisterMsg_fires os
    (OnDragSessionEnd os { s with dragging := false })
    hd2 hp2 (by rw [hq2]; exact Nat.succ_ne_zero _)
    (by rw [hr2]; exact hroot) (by rw [hr2]; exact hwin)
  rw [ProcessReRegisterMsg_iter_pending_false os j' _ hfire.2, hfire.1, hsw2]

theorem C4_sweep_exactly_once_after_session_witness :
    ((ProcessReRegisterMsg
        { isWindow := fun _ => true, regResult := fun _ => RegResult.ok,
          children := fun _ => [] })^[2]
      (OnDragSessionEnd
        { isWindow := fun _ => true, regResult := fun _ => RegResult.ok,
          children := fun _ => [] }
        { (ProcessReRegisterMsg
            { isWindow := fun _ => true, regResult := fun _ => RegResult.ok,
              children := fun _ => [] })^[1]
            { root := 1, registered := [], pending_add := [], pending_del := [],
              pending_re_reg := true, dragging := true, queuedReRegMsgs := 1,
              sweeps := 0 } with
          dragging := false })).sweeps =
      ({ root := 1, registered := [], pending_add := [], pending_del := [],
         pending_re_reg := true, dragging := true, queuedReRegMsgs := 1,
         sweeps := 0 } : RegState).sweeps + 1 :=
  (C4_sweep_exactly_once_after_session
    { isWindow := fun _ => true, regResult := fun _ => RegResult.ok,
      children := fun _ => [] }
    { root := 1, registered := [], pending_add := [], pending_del := [],
      pending_re_reg := true, dragging := true, queuedReRegMsgs := 1, sweeps := 0 }
    1 2 (by decide) rfl rfl rfl (by decide)).2.2

end DesktopDrop
